import Mathlib

/-!
Verification of the TALON transcript identity resolution engine
(detrout/TALON) against its natural-language specification.

The Python sources embedded here are:
  * src/archived/talon.py          -- the per-run matching / registry / flush code
  * src/initialize_talon_database.py -- database initialization and GTF load
  * src/transcript.py              -- the GTF-era Transcript class

Python dictionaries are embedded as association lists with unique keys
(`dictGet` / `dictSet`), Python integers as `Nat`/`Int`, and functions that can
raise as `Option`/`Except`.  Identifiers that the Python code renders with
`str(...)` before using them as dictionary keys are modelled by the underlying
numbers (`str` is injective on them, so no collision behaviour is lost).

Modules imported by src/archived/talon.py but absent from src/ (edge.py,
gene.py, vertex.py, transcript_match_tracker.py) are modelled from the spec;
each such definition carries a doc comment starting with `Modelled from the
spec:`.
-/

namespace Talon

/-- Python dict lookup, embedded on an association list (keys are unique). -/
def dictGet {κ α : Type} [DecidableEq κ] (m : List (κ × α)) (k : κ) : Option α :=
  match m with
  | [] => none
  | (k', v) :: rest => if k' = k then some v else dictGet rest k

/-- Python dict assignment `m[k] = v`: replaces the binding of `k` if present,
otherwise appends a new binding. -/
def dictSet {κ α : Type} [DecidableEq κ] (m : List (κ × α)) (k : κ) (v : α) :
    List (κ × α) :=
  match m with
  | [] => [(k, v)]
  | (k', v') :: rest => if k' = k then (k, v) :: rest else (k', v') :: dictSet rest k v

theorem dictGet_dictSet_self {κ α : Type} [DecidableEq κ]
    (m : List (κ × α)) (k : κ) (v : α) : dictGet (dictSet m k v) k = some v := by
  induction m with
  | nil => simp [dictGet, dictSet]
  | cons hd tl ih =>
    obtain ⟨k', v'⟩ := hd
    by_cases h : k' = k <;> simp [dictGet, dictSet, h, ih]

theorem dictGet_dictSet_ne {κ α : Type} [DecidableEq κ]
    (m : List (κ × α)) (k k' : κ) (v : α) (h : k' ≠ k) :
    dictGet (dictSet m k v) k' = dictGet m k' := by
  have hk : ¬(k = k') := fun hh => h hh.symm
  induction m with
  | nil => simp [dictGet, dictSet, hk]
  | cons hd tl ih =>
    obtain ⟨k0, v0⟩ := hd
    by_cases h0 : k0 = k
    · subst h0
      simp [dictGet, dictSet, hk]
    · by_cases h1 : k0 = k' <;> simp [dictGet, dictSet, h0, h1, h, hk, ih]

theorem dictSet_dictSet_self {κ α : Type} [DecidableEq κ]
    (m : List (κ × α)) (k : κ) (v w : α) :
    dictSet (dictSet m k v) k w = dictSet m k w := by
  induction m with
  | nil => simp [dictSet]
  | cons hd tl ih =>
    obtain ⟨k0, v0⟩ := hd
    by_cases h0 : k0 = k <;> simp [dictSet, h0, ih]

theorem length_dictSet_of_fresh {κ α : Type} [DecidableEq κ]
    (m : List (κ × α)) (k : κ) (v : α) (h : dictGet m k = none) :
    (dictSet m k v).length = m.length + 1 := by
  induction m with
  | nil => simp [dictSet]
  | cons hd tl ih =>
    obtain ⟨k0, v0⟩ := hd
    by_cases h0 : k0 = k
    · simp [dictGet, h0] at h
    · simp [dictGet, h0] at h
      simp [dictSet, h0, ih h]

theorem length_dictSet_of_mem {κ α : Type} [DecidableEq κ]
    (m : List (κ × α)) (k : κ) (v w : α) (h : dictGet m k = some w) :
    (dictSet m k v).length = m.length := by
  induction m with
  | nil => simp [dictGet] at h
  | cons hd tl ih =>
    obtain ⟨k0, v0⟩ := hd
    by_cases h0 : k0 = k
    · simp [dictSet, h0]
    · simp [dictGet, h0] at h
      simp [dictSet, h0, ih h]

/-! ## src/transcript.py : Transcript.add_exon (claim C9)

`Transcript.exons` is a flat Python list of integers.  `add_exon` raises
`ValueError` when `exon_start > exon_end` (before any mutation), and otherwise
runs `exon = [exon_start, exon_end]; self.exons += exon`.  On Python lists,
`+=` concatenates elementwise, so the two endpoints are appended as two flat
elements rather than as a nested pair. -/

def add_exon (exons : List Int) (exon_start exon_end : Int) :
    Except String (List Int) :=
  if exon_start > exon_end then
    .error ("Exon start (" ++ toString exon_start ++ ")" ++
            "is supposed to be before the exon end (" ++ toString exon_end ++ ")")
  else
    .ok (exons ++ [exon_start, exon_end])

/-- C9: `Transcript.add_exon(s, e)` raises `ValueError` (leaving the exon list
unchanged, since the raise precedes the mutation) exactly when `s > e`;
otherwise it extends the flat `exons` list by the two integers `s` and `e` as
separate elements, growing its length by exactly 2 and never storing a nested
pair. -/
theorem add_exon_spec (exons : List Int) (s e : Int) :
    ((∃ msg, add_exon exons s e = .error msg) ↔ s > e) ∧
    (∀ l, add_exon exons s e = .ok l →
      l = exons ++ [s, e] ∧ l.length = exons.length + 2) := by
  constructor
  · constructor
    · rintro ⟨msg, hmsg⟩
      by_contra h
      simp [add_exon, h] at hmsg
    · intro h
      refine ⟨"Exon start (" ++ toString s ++ ")" ++
              "is supposed to be before the exon end (" ++ toString e ++ ")", ?_⟩
      simp [add_exon, h]
  · intro l hl
    by_cases h : s > e
    · simp [add_exon, h] at hl
    · simp [add_exon, h] at hl
      subst hl
      simp

/-- Witness for C9 at a concrete input: appending exon `[3, 5]` to `[1, 2]`. -/
theorem add_exon_spec_witness :
    ((∃ msg, add_exon [1, 2] 3 5 = .error msg) ↔ (3 : Int) > 5) ∧
    (∀ l, add_exon [1, 2] 3 5 = .ok l →
      l = [1, 2] ++ [3, 5] ∧ l.length = List.length [1, 2] + 2) :=
  add_exon_spec [1, 2] 3 5

/-! ## src/initialize_talon_database.py : create_edge / create_vertex (claim C8)

In the Python code, `edges` and `vertices` are dictionaries holding, besides
the comma-joined-key entries, a reserved `"counter"` key mapping to the running
counter.  Comma-joined keys always contain a comma and so can never collide
with the string `"counter"`; the registry is therefore embedded as a structure
with a `counter` field next to the keyed table. -/

structure EdgeRegistry where
  counter : Nat
  table : List (String × (Nat × Nat × Nat × String))

structure VertexRegistry where
  counter : Nat
  table : List (String × (Nat × Nat × String × String × Nat × String))

/-- The dedup key built by `create_edge`: `",".join([str(v1), str(v2), edge_type])`. -/
def edgeKey (vertex_1 vertex_2 : Nat) (edge_type : String) : String :=
  toString vertex_1 ++ "," ++ toString vertex_2 ++ "," ++ edge_type

/-- The dedup key built by `create_vertex`:
`",".join([str(gene_id), genome_build, chromosome, str(pos), strand])`. -/
def vertexKey (gene_id : Nat) (genome_build chromosome : String) (pos : Nat)
    (strand : String) : String :=
  toString gene_id ++ "," ++ genome_build ++ "," ++ chromosome ++ "," ++
    toString pos ++ "," ++ strand

/-- `create_edge` from src/initialize_talon_database.py: returns the existing
edge id when the `(v1, v2, edge_type)` key is already present, and otherwise
mints id `counter + 1`, increments the counter and stores the new edge tuple. -/
def create_edge (vertex_1 vertex_2 : Nat) (edge_type : String)
    (edges : EdgeRegistry) : Nat × EdgeRegistry :=
  let query := edgeKey vertex_1 vertex_2 edge_type
  match dictGet edges.table query with
  | some existing_edge => (existing_edge.1, edges)
  | none =>
    let edge_id := edges.counter + 1
    let new_edge := (edge_id, vertex_1, vertex_2, edge_type)
    (edge_id, { counter := edges.counter + 1,
                table := dictSet edges.table query new_edge })

/-- `create_vertex` from src/initialize_talon_database.py: returns the existing
vertex id when the `(gene_id, genome_build, chromosome, pos, strand)` key is
already present, and otherwise mints id `counter + 1`, increments the counter
and stores the new vertex tuple. -/
def create_vertex (gene_id : Nat) (genome_build chromosome : String) (pos : Nat)
    (strand : String) (vertices : VertexRegistry) : Nat × VertexRegistry :=
  let query := vertexKey gene_id genome_build chromosome pos strand
  match dictGet vertices.table query with
  | some existing_vertex => (existing_vertex.1, vertices)
  | none =>
    let vertex_id := vertices.counter + 1
    let new_vertex := (vertex_id, gene_id, genome_build, chromosome, pos, strand)
    (vertex_id, { counter := vertices.counter + 1,
                  table := dictSet vertices.table query new_vertex })

/-- C8: novel-identifier allocation is idempotent under its dedup key: starting
from a state where the key is not yet present, calling `create_edge` twice with
the same `(v1, v2, edge_type)` (resp. `create_vertex` twice with the same
`(gene_id, genome_build, chromosome, position, strand)`) returns the same
identifier both times, leaves the registry untouched on the second call, and
increments the corresponding counter exactly once overall. -/
theorem create_edge_vertex_idempotent
    (v1 v2 : Nat) (edge_type : String) (E : EdgeRegistry)
    (hE : dictGet E.table (edgeKey v1 v2 edge_type) = none)
    (g : Nat) (gb chrom : String) (pos : Nat) (strand : String)
    (V : VertexRegistry)
    (hV : dictGet V.table (vertexKey g gb chrom pos strand) = none) :
    (create_edge v1 v2 edge_type
        (create_edge v1 v2 edge_type E).2).1 =
      (create_edge v1 v2 edge_type E).1 ∧
    (create_edge v1 v2 edge_type (create_edge v1 v2 edge_type E).2).2 =
      (create_edge v1 v2 edge_type E).2 ∧
    (create_edge v1 v2 edge_type E).2.counter = E.counter + 1 ∧
    (create_edge v1 v2 edge_type
        (create_edge v1 v2 edge_type E).2).2.counter = E.counter + 1 ∧
    (create_vertex g gb chrom pos strand
        (create_vertex g gb chrom pos strand V).2).1 =
      (create_vertex g gb chrom pos strand V).1 ∧
    (create_vertex g gb chrom pos strand
        (create_vertex g gb chrom pos strand V).2).2 =
      (create_vertex g gb chrom pos strand V).2 ∧
    (create_vertex g gb chrom pos strand V).2.counter = V.counter + 1 ∧
    (create_vertex g gb chrom pos strand
        (create_vertex g gb chrom pos strand V).2).2.counter = V.counter + 1 := by
  have hE1 : create_edge v1 v2 edge_type E =
      (E.counter + 1,
       { counter := E.counter + 1,
         table := dictSet E.table (edgeKey v1 v2 edge_type)
                    (E.counter + 1, v1, v2, edge_type) }) := by
    simp [create_edge, hE]
  have hE2 : dictGet (dictSet E.table (edgeKey v1 v2 edge_type)
      (E.counter + 1, v1, v2, edge_type)) (edgeKey v1 v2 edge_type) =
      some (E.counter + 1, v1, v2, edge_type) :=
    dictGet_dictSet_self _ _ _
  have hV1 : create_vertex g gb chrom pos strand V =
      (V.counter + 1,
       { counter := V.counter + 1,
         table := dictSet V.table (vertexKey g gb chrom pos strand)
                    (V.counter + 1, g, gb, chrom, pos, strand) }) := by
    simp [create_vertex, hV]
  have hV2 : dictGet (dictSet V.table (vertexKey g gb chrom pos strand)
      (V.counter + 1, g, gb, chrom, pos, strand)) (vertexKey g gb chrom pos strand) =
      some (V.counter + 1, g, gb, chrom, pos, strand) :=
    dictGet_dictSet_self _ _ _
  refine ⟨?_, ?_, ?_, ?_, ?_, ?_, ?_, ?_⟩ <;>
    simp only [hE1, hV1] <;>
    simp [create_edge, create_vertex, hE2, hV2]

/-- Witness for C8 at a concrete input: empty registries, edge `(1, 2, "exon")`
and vertex `(1, "hg38", "chr1", 100, "+")`. -/
theorem create_edge_vertex_idempotent_witness :
    (create_edge 1 2 "exon" (create_edge 1 2 "exon" ⟨0, []⟩).2).1 =
      (create_edge 1 2 "exon" (⟨0, []⟩ : EdgeRegistry)).1 ∧
    (create_edge 1 2 "exon" (create_edge 1 2 "exon" ⟨0, []⟩).2).2 =
      (create_edge 1 2 "exon" (⟨0, []⟩ : EdgeRegistry)).2 ∧
    (create_edge 1 2 "exon" (⟨0, []⟩ : EdgeRegistry)).2.counter = 0 + 1 ∧
    (create_edge 1 2 "exon" (create_edge 1 2 "exon" ⟨0, []⟩).2).2.counter = 0 + 1 ∧
    (create_vertex 1 "hg38" "chr1" 100 "+"
        (create_vertex 1 "hg38" "chr1" 100 "+" ⟨0, []⟩).2).1 =
      (create_vertex 1 "hg38" "chr1" 100 "+" (⟨0, []⟩ : VertexRegistry)).1 ∧
    (create_vertex 1 "hg38" "chr1" 100 "+"
        (create_vertex 1 "hg38" "chr1" 100 "+" ⟨0, []⟩).2).2 =
      (create_vertex 1 "hg38" "chr1" 100 "+" (⟨0, []⟩ : VertexRegistry)).2 ∧
    (create_vertex 1 "hg38" "chr1" 100 "+" (⟨0, []⟩ : VertexRegistry)).2.counter = 0 + 1 ∧
    (create_vertex 1 "hg38" "chr1" 100 "+"
        (create_vertex 1 "hg38" "chr1" 100 "+" ⟨0, []⟩).2).2.counter = 0 + 1 :=
  create_edge_vertex_idempotent 1 2 "exon" ⟨0, []⟩ rfl
    1 "hg38" "chr1" 100 "+" ⟨0, []⟩ rfl

/-! ## src/initialize_talon_database.py : read_gtf_file, exon branch (claim C10)

In the exon branch (lines 502-517), the new exon is written into the `exons`
dictionary *before* the `if location_exon_id not in exons` membership test, so
the test always sees the key as present and the else arm refetches the edge
that was just stored -- the freshly created one -- and re-adds its own
transcript id to it. -/

structure GtfExonEntry where
  exon_id : String
  transcript_id : String
  gene_id : String
deriving DecidableEq

structure GtfEdge where
  identifier : String
  transcript_ids : List String
  gene_id : String
deriving DecidableEq

/-- Python `set.add` on a set embedded as a duplicate-free list. -/
def setAdd {α : Type} [DecidableEq α] (s : List α) (x : α) : List α :=
  if x ∈ s then s else s ++ [x]

/-- Modelled from the spec: `Edge.create_edge_from_gtf` (module edge.py is not
under src/) builds a fresh Edge for a GTF exon entry whose `transcript_ids` set
initially holds exactly the entry's transcript id (the id that
`list(exon.transcript_ids)[0]` then reads back). -/
def create_edge_from_gtf (entry : GtfExonEntry) : GtfEdge :=
  { identifier := entry.exon_id,
    transcript_ids := [entry.transcript_id],
    gene_id := entry.gene_id }

/-- The exon branch of `read_gtf_file` (src/initialize_talon_database.py lines
502-517), acting on the `exons` dictionary. -/
def read_gtf_exon_entry (exons : List (String × GtfEdge)) (entry : GtfExonEntry) :
    List (String × GtfEdge) :=
  let exon := create_edge_from_gtf entry
  let location_exon_id := exon.identifier
  let exons1 := dictSet exons location_exon_id exon
  let transcript_id := exon.transcript_ids.headD ""
  match dictGet exons1 location_exon_id with
  | none =>
      dictSet exons1 location_exon_id exon
  | some stored =>
      dictSet exons1 location_exon_id
        { stored with transcript_ids := setAdd stored.transcript_ids transcript_id }

/-- The net effect of the exon branch is always a plain overwrite with the
freshly created edge: the merge arm only ever touches the edge stored by the
preceding assignment. -/
theorem read_gtf_exon_entry_eq (exons : List (String × GtfEdge))
    (entry : GtfExonEntry) :
    read_gtf_exon_entry exons entry =
      dictSet exons entry.exon_id (create_edge_from_gtf entry) := by
  unfold read_gtf_exon_entry
  simp only [create_edge_from_gtf]
  rw [dictGet_dictSet_self]
  simp [setAdd, dictSet_dictSet_self]

/-- C10: because the exon branch of `read_gtf_file` inserts the new exon into
the dictionary before the membership test, merging into a previously stored
exon never happens: processing any entry is a plain overwrite, and after two
GTF exon entries with the same exon identifier the dictionary maps that
identifier to the Edge built from the later entry alone, having discarded the
transcript id accumulated from the earlier entry. -/
theorem read_gtf_exon_entry_discards (exons : List (String × GtfEdge))
    (e1 e2 : GtfExonEntry) (hid : e1.exon_id = e2.exon_id) :
    dictGet (read_gtf_exon_entry (read_gtf_exon_entry exons e1) e2) e2.exon_id =
      some (create_edge_from_gtf e2) ∧
    (e1.transcript_id ≠ e2.transcript_id →
      e1.transcript_id ∉ (create_edge_from_gtf e2).transcript_ids) ∧
    (∀ (m : List (String × GtfEdge)) (entry : GtfExonEntry),
      read_gtf_exon_entry m entry =
        dictSet m entry.exon_id (create_edge_from_gtf entry)) := by
  refine ⟨?_, ?_, fun m entry => read_gtf_exon_entry_eq m entry⟩
  · rw [read_gtf_exon_entry_eq, read_gtf_exon_entry_eq, hid,
        dictSet_dictSet_self, dictGet_dictSet_self]
  · intro hne
    simp [create_edge_from_gtf, hne]

/-- Witness for C10 at a concrete input: two exon entries sharing the exon id
`"ENSE1"` but carrying different transcript ids; the second entry's edge wins
and the first transcript id is gone. -/
theorem read_gtf_exon_entry_discards_witness :
    dictGet (read_gtf_exon_entry
        (read_gtf_exon_entry [] ⟨"ENSE1", "T1", "G1"⟩) ⟨"ENSE1", "T2", "G1"⟩)
        ("ENSE1" : String) =
      some (create_edge_from_gtf ⟨"ENSE1", "T2", "G1"⟩) ∧
    (("T1" : String) ≠ "T2" →
      ("T1" : String) ∉ (create_edge_from_gtf ⟨"ENSE1", "T2", "G1"⟩).transcript_ids) ∧
    (∀ (m : List (String × GtfEdge)) (entry : GtfExonEntry),
      read_gtf_exon_entry m entry =
        dictSet m entry.exon_id (create_edge_from_gtf entry)) :=
  read_gtf_exon_entry_discards [] ⟨"ENSE1", "T1", "G1"⟩ ⟨"ENSE1", "T2", "G1"⟩ rfl

/-! ## src/archived/talon.py : find_transcript_match (claim C3)

Known transcripts as loaded into the per-run lookup table.  The archived
talon.py builds these through a transcript module version that is not under
src/; only the attributes that the src functions read are embedded.  `end` is a
Lean keyword, so the Python attribute `end` is named `endPos`. -/

structure KnownTranscript where
  identifier : Nat
  gene_id : Nat
  chromosome : String
  start : Int
  endPos : Int
  strand : String
  n_exons : Nat
  edges : List Nat

/-- Modelled from the spec: the Match Tracker (module transcript_match_tracker
is not under src/) after `match_all_edges` and `compute_match_sets` have run,
exposing exactly what `find_transcript_match` consumes: the `full_matches` and
`partial_matches` sets, and the results of `get_best_full_match`
(best transcript plus its computed 5-prime/3-prime deltas),
`get_best_partial_match` and `get_best_edge_matches`. -/
structure MatchTracker where
  full_matches : List Nat
  partial_matches : List Nat
  best_full : KnownTranscript × Int × Int
  best_partial : KnownTranscript
  best_edge_matches : List (Option Nat)

/-- The Python variable `transcript_match` starts out as the *string* `"none"`
and is replaced by a transcript object when a match is found. -/
inductive PyMatch where
  | obj (t : KnownTranscript)
  | noneStr

/-- `find_transcript_match` from src/archived/talon.py (lines 521-561): the
dispatch over the tracker's match sets.  The diff list `[diff_5, diff_3]`
(initially `[None, None]`) is embedded as a pair of `Option Int`.  In the full
branch the source returns `transcript_match.get_all_edges()`, embedded as the
matched transcript's edge ids. -/
def find_transcript_match (tracker : MatchTracker) :
    PyMatch × String × List (Option Nat) × (Option Int × Option Int) :=
  if tracker.full_matches.length > 0 then
    let transcript_match := tracker.best_full.1
    let d := tracker.best_full.2
    (.obj transcript_match, "full", transcript_match.edges.map some,
     (some d.1, some d.2))
  else if tracker.partial_matches.length > 0 then
    (.obj tracker.best_partial, "partial", tracker.best_edge_matches, (none, none))
  else
    (.noneStr, "none", tracker.best_edge_matches, (none, none))

/-- C3: `find_transcript_match` returns match type `"full"` together with the
best full match and its computed deltas exactly when the tracker's
`full_matches` set is non-empty; otherwise it returns `"partial"` with the best
partial match when `partial_matches` is non-empty and `"none"` when both are
empty, and in both non-full cases the returned diff is `[None, None]`. -/
theorem find_transcript_match_spec (tracker : MatchTracker) :
    ((find_transcript_match tracker).2.1 = "full" ↔ tracker.full_matches ≠ []) ∧
    (tracker.full_matches ≠ [] →
      find_transcript_match tracker =
        (.obj tracker.best_full.1, "full", tracker.best_full.1.edges.map some,
         (some tracker.best_full.2.1, some tracker.best_full.2.2))) ∧
    (tracker.full_matches = [] → tracker.partial_matches ≠ [] →
      find_transcript_match tracker =
        (.obj tracker.best_partial, "partial", tracker.best_edge_matches,
         (none, none))) ∧
    (tracker.full_matches = [] → tracker.partial_matches = [] →
      find_transcript_match tracker =
        (.noneStr, "none", tracker.best_edge_matches, (none, none))) := by
  by_cases hf : tracker.full_matches = []
  · by_cases hp : tracker.partial_matches = [] <;>
      simp [find_transcript_match, hf, hp, List.length_pos]
  · simp [find_transcript_match, hf, List.length_pos]

/-- Witness for C3 at a concrete tracker: one full match present. -/
theorem find_transcript_match_spec_witness :
    ((find_transcript_match
        ⟨[3], [], (⟨3, 1, "chr1", 1, 1000, "+", 2, [7, 8, 9]⟩, 0, 0),
         ⟨3, 1, "chr1", 1, 1000, "+", 2, [7, 8, 9]⟩, [some 7, none, some 9]⟩).2.1 =
      "full" ↔ ([3] : List Nat) ≠ []) ∧
    (([3] : List Nat) ≠ [] →
      find_transcript_match
        ⟨[3], [], (⟨3, 1, "chr1", 1, 1000, "+", 2, [7, 8, 9]⟩, 0, 0),
         ⟨3, 1, "chr1", 1, 1000, "+", 2, [7, 8, 9]⟩, [some 7, none, some 9]⟩ =
        (.obj ⟨3, 1, "chr1", 1, 1000, "+", 2, [7, 8, 9]⟩, "full",
         ([7, 8, 9] : List Nat).map some, (some 0, some 0))) ∧
    (([3] : List Nat) = [] → ([] : List Nat) ≠ [] →
      find_transcript_match
        ⟨[3], [], (⟨3, 1, "chr1", 1, 1000, "+", 2, [7, 8, 9]⟩, 0, 0),
         ⟨3, 1, "chr1", 1, 1000, "+", 2, [7, 8, 9]⟩, [some 7, none, some 9]⟩ =
        (.obj ⟨3, 1, "chr1", 1, 1000, "+", 2, [7, 8, 9]⟩, "partial",
         [some 7, none, some 9], (none, none))) ∧
    (([3] : List Nat) = [] → ([] : List Nat) = [] →
      find_transcript_match
        ⟨[3], [], (⟨3, 1, "chr1", 1, 1000, "+", 2, [7, 8, 9]⟩, 0, 0),
         ⟨3, 1, "chr1", 1, 1000, "+", 2, [7, 8, 9]⟩, [some 7, none, some 9]⟩ =
        (.noneStr, "none", [some 7, none, some 9], (none, none))) :=
  find_transcript_match_spec
    ⟨[3], [], (⟨3, 1, "chr1", 1, 1000, "+", 2, [7, 8, 9]⟩, 0, 0),
     ⟨3, 1, "chr1", 1, 1000, "+", 2, [7, 8, 9]⟩, [some 7, none, some 9]⟩

/-! ## src/archived/talon.py : gene assignment in identify_sam_transcripts (claim C4)

The fragment at lines 340-367: for single-exon queries `gene_match_id` is read
off `best_match.gene_id` inside a try/except (the except arm fires when
`best_match` is still the string `"none"`, i.e. when there is no partial
match); for multi-exon queries `gene_match_id = Vertex.search_for_gene(...)`.
A `None` id then mints a novel gene; otherwise the gene is fetched from
`gene_tree.genes` (a `KeyError` there is embedded as `none`). -/

structure TalonGene where
  identifier : Nat
  chromosome : String
  start : Int
  endPos : Int
  strand : String

/-- Modelled from the spec: `Gene.create_novel_gene` (module gene.py is not
under src/) mints a novel gene with identifier `counter.genes + 1` spanning the
read's coordinates, incrementing the gene counter. -/
def create_novel_gene (chromosome : String) (start endPos : Int) (strand : String)
    (counter_genes : Nat) : TalonGene × Nat :=
  (⟨counter_genes + 1, chromosome, start, endPos, strand⟩, counter_genes + 1)

/-- The pieces of per-run state this fragment reads and writes: the gene
counter, `gene_tree.genes`, and `novel_ids['genes']`. -/
structure GeneAssignSt where
  counter_genes : Nat
  gene_tree : List (Nat × TalonGene)
  novel_genes : List (Nat × (Nat × String))

/-- The result: the gene id assigned to the read (`sam_transcript.gene_ID`),
whether the fragment reset `match_type` to `"None"` (the minting arm does), and
the updated state. -/
structure GeneAssignOut where
  gene_ID : Nat
  match_type_reset : Bool
  st : GeneAssignSt

/-- The gene-assignment fragment of `identify_sam_transcripts`
(src/archived/talon.py lines 340-367), as the code has it.  `search_result` is
the value `Vertex.search_for_gene(sam_transcript, vertices)` would return
(module vertex.py is not under src/); the source consults it only in the
multi-exon arm. -/
def assign_gene (n_exons : Nat) (best_match : PyMatch) (search_result : Option Nat)
    (chromosome : String) (start endPos : Int) (strand dataset : String)
    (st : GeneAssignSt) : Option GeneAssignOut :=
  let gene_match_id : Option Nat :=
    if n_exons = 1 then
      match best_match with
      | .obj t => some t.gene_id
      | .noneStr => none
    else search_result
  match gene_match_id with
  | none =>
    let minted := create_novel_gene chromosome start endPos strand st.counter_genes
    let gene_obj := minted.1
    some { gene_ID := gene_obj.identifier,
           match_type_reset := true,
           st := { counter_genes := minted.2,
                   gene_tree := dictSet st.gene_tree gene_obj.identifier gene_obj,
                   novel_genes := dictSet st.novel_genes gene_obj.identifier
                                    (gene_obj.identifier, dataset) } }
  | some g =>
    match dictGet st.gene_tree g with
    | none => none
    | some gene_obj =>
        some { gene_ID := gene_obj.identifier, match_type_reset := false, st := st }

/-- The gene-assignment rule exactly as claim C4 states it: a single-exon query
uses the best partial match's gene when one exists, *else the Gene Locus Index
overlap search result*, and mints a novel gene only when both fail. -/
def assign_gene_claimed (n_exons : Nat) (best_match : PyMatch)
    (search_result : Option Nat) (chromosome : String) (start endPos : Int)
    (strand dataset : String) (st : GeneAssignSt) : Option GeneAssignOut :=
  let gene_match_id : Option Nat :=
    if n_exons = 1 then
      match best_match with
      | .obj t => some t.gene_id
      | .noneStr => search_result
    else search_result
  match gene_match_id with
  | none =>
    let minted := create_novel_gene chromosome start endPos strand st.counter_genes
    let gene_obj := minted.1
    some { gene_ID := gene_obj.identifier,
           match_type_reset := true,
           st := { counter_genes := minted.2,
                   gene_tree := dictSet st.gene_tree gene_obj.identifier gene_obj,
                   novel_genes := dictSet st.novel_genes gene_obj.identifier
                                    (gene_obj.identifier, dataset) } }
  | some g =>
    match dictGet st.gene_tree g with
    | none => none
    | some gene_obj =>
        some { gene_ID := gene_obj.identifier, match_type_reset := false, st := st }

/-- Counterexample to C4 as stated: a single-exon query with no partial match
(`best_match` still `"none"`) over a state whose gene tree holds gene 5
overlapping the read.  The claimed rule would assign gene 5 via the overlap
search; the code never consults the search in the single-exon arm and mints
novel gene 11 instead. -/
theorem assign_gene_counterexample :
    (assign_gene 1 .noneStr (some 5) "chr1" 100 200 "+" "d1"
        ⟨10, [(5, ⟨5, "chr1", 0, 5000, "+"⟩)], []⟩).map (fun r => r.gene_ID) =
      some 11 ∧
    (assign_gene_claimed 1 .noneStr (some 5) "chr1" 100 200 "+" "d1"
        ⟨10, [(5, ⟨5, "chr1", 0, 5000, "+"⟩)], []⟩).map (fun r => r.gene_ID) =
      some 5 ∧
    (11 : Nat) ≠ 5 := by
  refine ⟨rfl, ?_, by decide⟩
  simp [assign_gene_claimed, create_novel_gene, dictGet]

/-- C4 as amended: single-exon queries take the best partial match's gene when
one exists and otherwise mint a novel gene immediately -- the positional
search is never consulted for them; multi-exon queries always use the
positional search and never the partial match's gene; whenever assignment
fails, a novel gene spanning the read's coordinates is minted (gene counter
incremented by one) and inserted into the gene tree at once, so later reads of
the run can match it. -/
theorem assign_gene_spec (n_exons : Nat) (best_match : PyMatch)
    (search_result : Option Nat) (chromosome : String) (start endPos : Int)
    (strand dataset : String) (st : GeneAssignSt) :
    (n_exons = 1 → ∀ s s' : Option Nat,
      assign_gene 1 best_match s chromosome start endPos strand dataset st =
      assign_gene 1 best_match s' chromosome start endPos strand dataset st) ∧
    (n_exons ≠ 1 → ∀ b b' : PyMatch,
      assign_gene n_exons b search_result chromosome start endPos strand dataset st =
      assign_gene n_exons b' search_result chromosome start endPos strand dataset st) ∧
    ((n_exons = 1 ∧ best_match = .noneStr) ∨ (n_exons ≠ 1 ∧ search_result = none) →
      assign_gene n_exons best_match search_result chromosome start endPos strand
          dataset st =
        some { gene_ID := st.counter_genes + 1,
               match_type_reset := true,
               st := { counter_genes := st.counter_genes + 1,
                       gene_tree := dictSet st.gene_tree (st.counter_genes + 1)
                         ⟨st.counter_genes + 1, chromosome, start, endPos, strand⟩,
                       novel_genes := dictSet st.novel_genes (st.counter_genes + 1)
                         (st.counter_genes + 1, dataset) } }) ∧
    (∀ t gene_obj, n_exons = 1 → best_match = .obj t →
      dictGet st.gene_tree t.gene_id = some gene_obj →
      assign_gene n_exons best_match search_result chromosome start endPos strand
          dataset st = some ⟨gene_obj.identifier, false, st⟩) ∧
    (∀ g gene_obj, n_exons ≠ 1 → search_result = some g →
      dictGet st.gene_tree g = some gene_obj →
      assign_gene n_exons best_match search_result chromosome start endPos strand
          dataset st = some ⟨gene_obj.identifier, false, st⟩) := by
  refine ⟨?_, ?_, ?_, ?_, ?_⟩
  · intro _ s s'
    cases best_match <;> simp [assign_gene]
  · intro h b b'
    cases b <;> cases b' <;> simp [assign_gene, h]
  · rintro (⟨h1, h2⟩ | ⟨h1, h2⟩) <;>
      subst h2 <;> simp [assign_gene, h1, create_novel_gene]
  · intro t gene_obj h1 h2 h3
    subst h1; subst h2
    simp [assign_gene, h3]
  · intro g gene_obj h1 h2 h3
    subst h2
    simp [assign_gene, h1, h3]

/-- Witness for the amended C4 at a concrete input: a 2-exon query with a
failed positional search mints gene 1 into an empty state. -/
theorem assign_gene_spec_witness :
    ((2 : Nat) = 1 → ∀ s s' : Option Nat,
      assign_gene 1 .noneStr s "chr1" 100 200 "+" "d1" ⟨0, [], []⟩ =
      assign_gene 1 .noneStr s' "chr1" 100 200 "+" "d1" ⟨0, [], []⟩) ∧
    ((2 : Nat) ≠ 1 → ∀ b b' : PyMatch,
      assign_gene 2 b none "chr1" 100 200 "+" "d1" ⟨0, [], []⟩ =
      assign_gene 2 b' none "chr1" 100 200 "+" "d1" ⟨0, [], []⟩) ∧
    (((2 : Nat) = 1 ∧ PyMatch.noneStr = .noneStr) ∨
        ((2 : Nat) ≠ 1 ∧ (none : Option Nat) = none) →
      assign_gene 2 .noneStr none "chr1" 100 200 "+" "d1" ⟨0, [], []⟩ =
        some { gene_ID := 0 + 1,
               match_type_reset := true,
               st := { counter_genes := 0 + 1,
                       gene_tree := dictSet [] (0 + 1)
                         ⟨0 + 1, "chr1", 100, 200, "+"⟩,
                       novel_genes := dictSet [] (0 + 1) (0 + 1, "d1") } }) ∧
    (∀ t gene_obj, (2 : Nat) = 1 → PyMatch.noneStr = .obj t →
      dictGet ([] : List (Nat × TalonGene)) t.gene_id = some gene_obj →
      assign_gene 2 .noneStr none "chr1" 100 200 "+" "d1" ⟨0, [], []⟩ =
        some ⟨gene_obj.identifier, false, ⟨0, [], []⟩⟩) ∧
    (∀ g gene_obj, (2 : Nat) ≠ 1 → (none : Option Nat) = some g →
      dictGet ([] : List (Nat × TalonGene)) g = some gene_obj →
      assign_gene 2 .noneStr none "chr1" 100 200 "+" "d1" ⟨0, [], []⟩ =
        some ⟨gene_obj.identifier, false, ⟨0, [], []⟩⟩) :=
  assign_gene_spec 2 .noneStr none "chr1" 100 200 "+" "d1" ⟨0, [], []⟩

/-! ## src/archived/talon.py : make_novel_transcript, per-edge step (claim C5)

For each query edge, make_novel_transcript (lines 479-508) looks the edge
match up in the interval tree's `edges` dict; a match owned by a different
gene (or a missing match) forces a fresh edge to be minted under the assigned
gene, and only a match owned by the assigned gene is reused.  The endpoint
vertex bookkeeping (`Vertex.try_vertex_update`) and the `novel_ids['edges']`
staging write are not referenced by any claim and are omitted from the edge
model. -/

structure TalonEdgeObj where
  identifier : Nat
  gene_id : Nat
  start : Int
  endPos : Int
  transcript_ids : List Nat

/-- Modelled from the spec: `Edge.create_novel_edge` (module edge.py is not
under src/) mints a novel edge with identifier `counter.edges + 1` under the
provided gene, incrementing the edge counter. -/
def create_novel_edge (edge_start edge_end : Int) (gene_id : Nat)
    (counter_edges : Nat) : TalonEdgeObj × Nat :=
  (⟨counter_edges + 1, gene_id, edge_start, edge_end, []⟩, counter_edges + 1)

/-- One iteration of the edge loop of `make_novel_transcript`
(src/archived/talon.py lines 482-508).  The Python guard is
`match_gene_id != gene_id or edge_match == None` where `match_gene_id` is the
matched edge's gene when `edge_match` is a key of `edge_tree.edges` and `None`
otherwise; since the assigned `gene_id` is always a real id, that guard mints
exactly when the match is absent, unknown to the tree, or owned by another
gene, and reuses the matched edge (adding the novel transcript id to its
transcript set, visible through the tree) only when its gene is the assigned
one.  Returns the edge used, the updated tree and the updated edge counter. -/
def make_novel_transcript_edge (edge_match : Option Nat)
    (edge_tree : List (Nat × TalonEdgeObj)) (gene_id : Nat)
    (edge_start edge_end : Int) (novel_transcript_id : Nat)
    (counter_edges : Nat) :
    TalonEdgeObj × List (Nat × TalonEdgeObj) × Nat :=
  match edge_match with
  | none =>
      let minted := create_novel_edge edge_start edge_end gene_id counter_edges
      let edge_obj :=
        { minted.1 with
          transcript_ids := setAdd minted.1.transcript_ids novel_transcript_id }
      (edge_obj, dictSet edge_tree edge_obj.identifier edge_obj, minted.2)
  | some m =>
    match dictGet edge_tree m with
    | none =>
        let minted := create_novel_edge edge_start edge_end gene_id counter_edges
        let edge_obj :=
          { minted.1 with
            transcript_ids := setAdd minted.1.transcript_ids novel_transcript_id }
        (edge_obj, dictSet edge_tree edge_obj.identifier edge_obj, minted.2)
    | some stored =>
      if stored.gene_id ≠ gene_id then
        let minted := create_novel_edge edge_start edge_end gene_id counter_edges
        let edge_obj :=
          { minted.1 with
            transcript_ids := setAdd minted.1.transcript_ids novel_transcript_id }
        (edge_obj, dictSet edge_tree edge_obj.identifier edge_obj, minted.2)
      else
        let edge_obj :=
          { stored with
            transcript_ids := setAdd stored.transcript_ids novel_transcript_id }
        (edge_obj, dictSet edge_tree m edge_obj, counter_edges)

/-- C5: edges are gene-scoped.  A per-edge match owned by a gene other than
the one assigned to the new transcript is never reused: a fresh edge id
(`counter.edges + 1`, distinct from the matched id whenever the counter
dominates the existing ids) is minted under the assigned gene, the counter is
incremented, and -- for every possible match -- the edge the transcript ends
up using always carries the assigned gene, so transcripts of different genes
never share an edge identifier. -/
theorem make_novel_transcript_edge_gene_scoped
    (edge_tree : List (Nat × TalonEdgeObj)) (gene_id : Nat)
    (edge_start edge_end : Int) (novel_transcript_id : Nat)
    (counter_edges : Nat) (m : Nat) (stored : TalonEdgeObj)
    (hm : dictGet edge_tree m = some stored)
    (hgene : stored.gene_id ≠ gene_id)
    (hctr : m ≤ counter_edges) :
    (make_novel_transcript_edge (some m) edge_tree gene_id edge_start edge_end
        novel_transcript_id counter_edges).1.identifier = counter_edges + 1 ∧
    (make_novel_transcript_edge (some m) edge_tree gene_id edge_start edge_end
        novel_transcript_id counter_edges).1.identifier ≠ m ∧
    (make_novel_transcript_edge (some m) edge_tree gene_id edge_start edge_end
        novel_transcript_id counter_edges).2.2 = counter_edges + 1 ∧
    (∀ em : Option Nat,
      (make_novel_transcript_edge em edge_tree gene_id edge_start edge_end
          novel_transcript_id counter_edges).1.gene_id = gene_id) := by
  refine ⟨?_, ?_, ?_, ?_⟩
  · simp [make_novel_transcript_edge, hm, hgene, create_novel_edge]
  · simp only [make_novel_transcript_edge, hm, hgene, create_novel_edge]
    simp only [ne_eq, ite_not]
    simp only [if_neg hgene]
    omega
  · simp [make_novel_transcript_edge, hm, hgene, create_novel_edge]
  · intro em
    match em with
    | none => simp [make_novel_transcript_edge, create_novel_edge, setAdd]
    | some m' =>
      match hm' : dictGet edge_tree m' with
      | none => simp [make_novel_transcript_edge, hm', create_novel_edge, setAdd]
      | some stored' =>
        by_cases hg : stored'.gene_id = gene_id <;>
          simp [make_novel_transcript_edge, hm', create_novel_edge, setAdd, hg]

/-- Witness for C5 at a concrete input: edge 4 of gene 9 is matched while the
new transcript belongs to gene 2; a fresh edge 8 is minted instead. -/
theorem make_novel_transcript_edge_gene_scoped_witness :
    (make_novel_transcript_edge (some 4)
        [(4, ⟨4, 9, 100, 200, [1]⟩)] 2 100 200 6 7).1.identifier = 7 + 1 ∧
    (make_novel_transcript_edge (some 4)
        [(4, ⟨4, 9, 100, 200, [1]⟩)] 2 100 200 6 7).1.identifier ≠ 4 ∧
    (make_novel_transcript_edge (some 4)
        [(4, ⟨4, 9, 100, 200, [1]⟩)] 2 100 200 6 7).2.2 = 7 + 1 ∧
    (∀ em : Option Nat,
      (make_novel_transcript_edge em
          [(4, ⟨4, 9, 100, 200, [1]⟩)] 2 100 200 6 7).1.gene_id = 2) :=
  make_novel_transcript_edge_gene_scoped
    [(4, ⟨4, 9, 100, 200, [1]⟩)] 2 100 200 6 7 4 ⟨4, 9, 100, 200, [1]⟩
    rfl (by decide) (by decide)

/-! ## src/archived/talon.py : get_transcript_start_and_end_diffs (claim C6)

Called unconditionally once per accepted read (line 384), after both the full
branch and the novel branch of `identify_sam_transcripts` -- the function
never sees the match type.  It allocates `obs_id = counter['observed'] + 1`,
bumps the counter, and stores one observed tuple under that id, with the start
and end vertex fields swapped for minus-strand reads. -/

structure TalonVertex where
  identifier : Nat
  chromosome : String
  position : Int
  strand : String
  gene_id : Nat
deriving DecidableEq

/-- The read attributes the function consumes.  `length` embeds
`sam_transcript.get_length()`. -/
structure SamTranscript where
  identifier : String
  chromosome : String
  start : Int
  endPos : Int
  strand : String
  dataset : String
  gene_ID : Nat
  length : Int

/-- The observed 10-tuple, with fields named after the columns
`batch_add_observed` inserts them into. -/
structure ObservedTuple where
  obs_ID : Nat
  gene_ID : Nat
  transcript_ID : Nat
  read_name : String
  dataset : String
  start_vertex_ID : Nat
  end_vertex_ID : Nat
  start_delta : Int
  end_delta : Int
  read_length : Int

/-- Modelled from the spec: `Vertex.fetch_vertex` (module vertex.py is not
under src/) returns the known vertex at the given chromosome and position that
belongs to the given gene, if any. -/
def fetch_vertex (vertices : List TalonVertex) (chromosome : String) (pos : Int)
    (gene_id : Nat) : Option TalonVertex :=
  vertices.find? (fun v =>
    v.chromosome == chromosome && v.position == pos && v.gene_id == gene_id)

/-- Modelled from the spec: `TMT.get_difference` (module
transcript_match_tracker.py is not under src/) computes the signed 5-prime and
3-prime distances between the read span `a` and the annotated span `b`,
oriented so that a positive delta means the read extends beyond the annotated
boundary on either strand. -/
def get_difference (a b : Int × Int) (strand : String) : Int × Int :=
  if strand = "+" then (b.1 - a.1, a.2 - b.2) else (a.2 - b.2, b.1 - a.1)

/-- `get_transcript_start_and_end_diffs` from src/archived/talon.py (lines
399-450), acting on `counter['observed']` and `novel_ids['observed']`.  A
failed vertex fetch (`.identifier` on `None`) or a strand other than `"+"` or
`"-"` (which leaves the Python variable `observed` unbound) raises, embedded
as `none`. -/
def get_transcript_start_and_end_diffs (sam : SamTranscript)
    (annot : KnownTranscript) (vertices : List TalonVertex) (dataset : String)
    (counter_observed : Nat) (observed : List (Nat × ObservedTuple)) :
    Option (Nat × List (Nat × ObservedTuple) × (Int × Int)) :=
  let obs_id := counter_observed + 1
  let counter' := counter_observed + 1
  let d := get_difference (sam.start, sam.endPos) (annot.start, annot.endPos)
             sam.strand
  match fetch_vertex vertices annot.chromosome annot.start sam.gene_ID,
        fetch_vertex vertices annot.chromosome annot.endPos sam.gene_ID with
  | some first_vertex, some last_vertex =>
    if sam.strand = "+" then
      some (counter',
            dictSet observed obs_id
              ⟨obs_id, annot.gene_id, annot.identifier, sam.identifier, dataset,
               first_vertex.identifier, last_vertex.identifier, d.1, d.2,
               sam.length⟩,
            d)
    else if sam.strand = "-" then
      some (counter',
            dictSet observed obs_id
              ⟨obs_id, annot.gene_id, annot.identifier, sam.identifier, dataset,
               last_vertex.identifier, first_vertex.identifier, d.1, d.2,
               sam.length⟩,
            d)
    else none
  | _, _ => none

/-- C6: every accepted read (the function is invoked once per read, whatever
the match type was) yields exactly one observed record, keyed by a freshly
allocated observation id obtained by incrementing the observed counter by
exactly one; on `"-"`-strand reads the start and end vertex fields of the
record are swapped relative to the `"+"`-strand layout. -/
theorem get_transcript_start_and_end_diffs_spec (sam : SamTranscript)
    (annot : KnownTranscript) (vertices : List TalonVertex) (dataset : String)
    (counter_observed : Nat) (observed : List (Nat × ObservedTuple))
    (fv lv : TalonVertex)
    (hstrand : sam.strand = "+" ∨ sam.strand = "-")
    (hfv : fetch_vertex vertices annot.chromosome annot.start sam.gene_ID =
      some fv)
    (hlv : fetch_vertex vertices annot.chromosome annot.endPos sam.gene_ID =
      some lv)
    (hfresh : dictGet observed (counter_observed + 1) = none) :
    ∃ observed' d,
      get_transcript_start_and_end_diffs sam annot vertices dataset
          counter_observed observed =
        some (counter_observed + 1, observed', d) ∧
      observed'.length = observed.length + 1 ∧
      ∃ tup, dictGet observed' (counter_observed + 1) = some tup ∧
        tup.obs_ID = counter_observed + 1 ∧
        (sam.strand = "+" →
          tup.start_vertex_ID = fv.identifier ∧
          tup.end_vertex_ID = lv.identifier) ∧
        (sam.strand = "-" →
          tup.start_vertex_ID = lv.identifier ∧
          tup.end_vertex_ID = fv.identifier) := by
  rcases hstrand with hs | hs
  · have heq : get_transcript_start_and_end_diffs sam annot vertices dataset
        counter_observed observed =
        some (counter_observed + 1,
          dictSet observed (counter_observed + 1)
            ⟨counter_observed + 1, annot.gene_id, annot.identifier,
             sam.identifier, dataset, fv.identifier, lv.identifier,
             (get_difference (sam.start, sam.endPos) (annot.start, annot.endPos)
                sam.strand).1,
             (get_difference (sam.start, sam.endPos) (annot.start, annot.endPos)
                sam.strand).2,
             sam.length⟩,
          get_difference (sam.start, sam.endPos) (annot.start, annot.endPos)
            sam.strand) := by
      simp [get_transcript_start_and_end_diffs, hfv, hlv, hs]
    refine ⟨_, _, heq, length_dictSet_of_fresh _ _ _ hfresh, _,
            dictGet_dictSet_self _ _ _, rfl, fun _ => ⟨rfl, rfl⟩, ?_⟩
    intro hneg
    rw [hs] at hneg
    exact absurd hneg (by decide)
  · have heq : get_transcript_start_and_end_diffs sam annot vertices dataset
        counter_observed observed =
        some (counter_observed + 1,
          dictSet observed (counter_observed + 1)
            ⟨counter_observed + 1, annot.gene_id, annot.identifier,
             sam.identifier, dataset, lv.identifier, fv.identifier,
             (get_difference (sam.start, sam.endPos) (annot.start, annot.endPos)
                sam.strand).1,
             (get_difference (sam.start, sam.endPos) (annot.start, annot.endPos)
                sam.strand).2,
             sam.length⟩,
          get_difference (sam.start, sam.endPos) (annot.start, annot.endPos)
            sam.strand) := by
      simp [get_transcript_start_and_end_diffs, hfv, hlv, hs]
    refine ⟨_, _, heq, length_dictSet_of_fresh _ _ _ hfresh, _,
            dictGet_dictSet_self _ _ _, rfl, ?_, fun _ => ⟨rfl, rfl⟩⟩
    intro hpos
    rw [hs] at hpos
    exact absurd hpos (by decide)

/-- Witness for C6 at a concrete input: a minus-strand read over gene 7 with
the annotated boundary vertices 10 and 11 known; one record is written under
observation id 1 with the vertex fields swapped. -/
theorem get_transcript_start_and_end_diffs_spec_witness :
    ∃ observed' d,
      get_transcript_start_and_end_diffs
          ⟨"read1", "chr1", 100, 200, "-", "d1", 7, 100⟩
          ⟨3, 7, "chr1", 100, 200, "-", 1, [1]⟩
          [⟨10, "chr1", 100, "-", 7⟩, ⟨11, "chr1", 200, "-", 7⟩]
          "d1" 0 [] =
        some (0 + 1, observed', d) ∧
      observed'.length = List.length ([] : List (Nat × ObservedTuple)) + 1 ∧
      ∃ tup, dictGet observed' (0 + 1) = some tup ∧
        tup.obs_ID = 0 + 1 ∧
        (("-" : String) = "+" →
          tup.start_vertex_ID = 10 ∧ tup.end_vertex_ID = 11) ∧
        (("-" : String) = "-" →
          tup.start_vertex_ID = 11 ∧ tup.end_vertex_ID = 10) :=
  get_transcript_start_and_end_diffs_spec
    ⟨"read1", "chr1", 100, 200, "-", "d1", 7, 100⟩
    ⟨3, 7, "chr1", 100, 200, "-", 1, [1]⟩
    [⟨10, "chr1", 100, "-", 7⟩, ⟨11, "chr1", 200, "-", 7⟩]
    "d1" 0 [] ⟨10, "chr1", 100, "-", 7⟩ ⟨11, "chr1", 200, "-", 7⟩
    (Or.inr rfl) (by decide) (by decide) rfl

/-! ## src/archived/talon.py : abundance accumulation (claim C7)

Lines 387-395 of `identify_sam_transcripts`: the in-memory nested dictionary
`abundance : transcript id -> dataset -> count` is bumped once per processed
read (the `try: += 1 / except: = 1` initialises a missing dataset key; a
missing transcript key first gets an empty inner dict).  Nothing is written to
the store here; `batch_add_abundance` runs only inside `update_database`. -/

/-- One abundance bump, from src/archived/talon.py lines 387-395. -/
def add_abundance (abundance : List (Nat × List (String × Nat)))
    (transcript_id : Nat) (dataset : String) :
    List (Nat × List (String × Nat)) :=
  match dictGet abundance transcript_id with
  | some inner =>
    match dictGet inner dataset with
    | some c => dictSet abundance transcript_id (dictSet inner dataset (c + 1))
    | none => dictSet abundance transcript_id (dictSet inner dataset 1)
  | none => dictSet abundance transcript_id (dictSet [] dataset 1)

/-- Reading `abundance[t][d]` with 0 for missing keys. -/
def lookup_abundance (abundance : List (Nat × List (String × Nat)))
    (t : Nat) (d : String) : Nat :=
  match dictGet abundance t with
  | some inner => (dictGet inner d).getD 0
  | none => 0

/-- The per-read loop of `identify_sam_transcripts`, restricted to its effect
on the abundance dictionary: each processed read contributes its assigned
transcript id and its dataset. -/
def record_abundances (abundance : List (Nat × List (String × Nat)))
    (assigns : List (Nat × String)) : List (Nat × List (String × Nat)) :=
  assigns.foldl (fun ab p => add_abundance ab p.1 p.2) abundance

theorem lookup_add_abundance (ab : List (Nat × List (String × Nat)))
    (t' : Nat) (d' : String) (t : Nat) (d : String) :
    lookup_abundance (add_abundance ab t' d') t d =
      lookup_abundance ab t d + (if t = t' ∧ d = d' then 1 else 0) := by
  by_cases ht : t = t'
  · subst ht
    by_cases hd : d = d'
    · subst hd
      match h1 : dictGet ab t with
      | some inner =>
        match h2 : dictGet inner d with
        | some c =>
          simp [add_abundance, lookup_abundance, h1, h2, dictGet_dictSet_self]
        | none =>
          simp [add_abundance, lookup_abundance, h1, h2, dictGet_dictSet_self]
      | none =>
        simp [add_abundance, lookup_abundance, h1, dictGet_dictSet_self, dictGet]
    · match h1 : dictGet ab t with
      | some inner =>
        match h2 : dictGet inner d' with
        | some c =>
          simp [add_abundance, lookup_abundance, h1, h2, dictGet_dictSet_self,
                dictGet_dictSet_ne _ _ _ _ hd, hd]
        | none =>
          simp [add_abundance, lookup_abundance, h1, h2, dictGet_dictSet_self,
                dictGet_dictSet_ne _ _ _ _ hd, hd]
      | none =>
        have hd' : ¬(d' = d) := fun hh => hd hh.symm
        simp [add_abundance, lookup_abundance, h1, dictGet_dictSet_self,
              dictGet, hd, hd']
  · have hget : ∀ v, dictGet (dictSet ab t' v) t = dictGet ab t :=
      fun v => dictGet_dictSet_ne ab t' t v ht
    match h1 : dictGet ab t' with
    | some inner =>
      match h2 : dictGet inner d' with
      | some c => simp [add_abundance, lookup_abundance, h1, h2, hget, ht]
      | none => simp [add_abundance, lookup_abundance, h1, h2, hget, ht]
    | none => simp [add_abundance, lookup_abundance, h1, hget, ht]

theorem lookup_record_abundances (assigns : List (Nat × String))
    (ab : List (Nat × List (String × Nat))) (t : Nat) (d : String) :
    lookup_abundance (record_abundances ab assigns) t d =
      lookup_abundance ab t d + assigns.count (t, d) := by
  induction assigns generalizing ab with
  | nil => simp [record_abundances]
  | cons p rest ih =>
    obtain ⟨t', d'⟩ := p
    show lookup_abundance (record_abundances (add_abundance ab t' d') rest) t d = _
    rw [ih, lookup_add_abundance, List.count_cons]
    by_cases h : t = t' ∧ d = d'
    · obtain ⟨h1, h2⟩ := h
      subst h1; subst h2
      simp
      omega
    · have hne : ((t', d') == (t, d)) = false := by
        refine beq_eq_false_iff_ne.mpr ?_
        intro hh
        injection hh with ht hd
        exact h ⟨ht.symm, hd.symm⟩
      simp [hne, h]

/-- C7: after processing a run of reads starting from an empty abundance
dictionary, the entry `abundance[t][d]` equals the number of processed reads
of dataset `d` that were assigned transcript `t` (each read increments its
entry exactly once); in particular 1000 reads all assigned one transcript in
one dataset yield a count of 1000 for it. -/
theorem abundance_counts (assigns : List (Nat × String)) (t : Nat) (d : String) :
    lookup_abundance (record_abundances [] assigns) t d =
      assigns.count (t, d) ∧
    lookup_abundance (record_abundances [] (List.replicate 1000 (t, d))) t d =
      1000 := by
  constructor
  · rw [lookup_record_abundances]
    simp [lookup_abundance, dictGet]
  · rw [lookup_record_abundances, List.count_replicate_self]
    simp [lookup_abundance, dictGet]

/-- Witness for C7 at a concrete input: one read of dataset `"d1"` assigned
transcript 7. -/
theorem abundance_counts_witness :
    lookup_abundance (record_abundances [] [(7, "d1")]) 7 "d1" =
      List.count (7, "d1") [(7, "d1")] ∧
    lookup_abundance (record_abundances [] (List.replicate 1000 (7, "d1"))) 7 "d1" =
      1000 :=
  abundance_counts [(7, "d1")] 7 "d1"

/-! ## src/archived/talon.py : update_database / check_database_integrity (C1, C2)

The durable store is embedded by what this code observes of it: the rows of
the `counters` table and the live row count of every table (`SELECT COUNT(*)`).
Each `batch_add_*` function slices its staged rows into `batch_size` chunks
and feeds them to `executemany`; the chunks partition the same rows, so the
effect on a table's row count is the total number of staged rows, independent
of the batch size.  Every counter category created by
initialize_talon_database names an existing table, so the `COUNT(*)` of a
category's table is read with default 0.  Work happens on the open
transaction's pending view; `conn.commit()` runs only after
`check_database_integrity` returns, so a raised integrity error leaves the
durable state untouched. -/

structure DBState where
  counters : List (String × Nat)
  tables : List (String × Nat)

/-- Add `n` freshly inserted rows to a table's live count. -/
def add_rows (db : DBState) (table : String) (n : Nat) : DBState :=
  { db with
    tables := dictSet db.tables table ((dictGet db.tables table).getD 0 + n) }

/-- A staged row of `novel_ids['transcripts']`: `(transcript id, gene id,
edge path, start vertex, end vertex, n_exons, dataset)`. -/
structure TranscriptRow where
  transcript_ID : Nat
  gene_ID : Nat
  path : String
  start_vertex : Nat
  end_vertex : Nat
  n_exons : Nat
  dataset : String

/-- A staged row of `novel_ids['edges']`: `(edge id, v1, v2, edge type,
dataset)`. -/
structure EdgeRow where
  edge_ID : Nat
  v1 : Nat
  v2 : Nat
  edge_type : String
  dataset : String

/-- A staged row of `novel_ids['vertices']`: `(vertex id, gene id, chromosome,
position, strand)`. -/
structure VertexRow where
  vertex_ID : Nat
  gene_ID : Nat
  chromosome : String
  position : Int
  strand : String

/-- A staged row of `novel_ids['datasets']`: `(dataset id, name, sample,
platform)`. -/
structure DatasetRow where
  dataset_ID : Nat
  dataset_name : String
  sample : String
  platform : String

/-- The `novel_ids` staging dictionary handed to `update_database`. -/
structure NovelIds where
  genes : List (Nat × (Nat × String))
  transcripts : List (Nat × TranscriptRow)
  edges : List (Nat × EdgeRow)
  vertices : List (Nat × VertexRow)
  observed : List (Nat × ObservedTuple)
  datasets : List (Nat × DatasetRow)

/-- The in-memory `counter` dictionary at flush time. -/
structure CounterDict where
  genes : Nat
  transcripts : Nat
  vertices : Nat
  edges : Nat
  datasets : Nat
  observed : Nat

/-- `batch_add_genes`: one row per novel gene into `genes` and one NOVEL
status row into `gene_annotations`. -/
def batch_add_genes (db : DBState) (novel : NovelIds) : DBState :=
  add_rows (add_rows db "genes" novel.genes.length)
    "gene_annotations" novel.genes.length

/-- `batch_add_transcripts`: one row per novel transcript into `transcripts`
and one NOVEL status row into `transcript_annotations`. -/
def batch_add_transcripts (db : DBState) (novel : NovelIds) : DBState :=
  add_rows (add_rows db "transcripts" novel.transcripts.length)
    "transcript_annotations" novel.transcripts.length

/-- `batch_add_edges`: one row per novel edge into `edge`, plus one NOVEL
status row into `exon_annotations` for the exon-typed edges only. -/
def batch_add_edges (db : DBState) (novel : NovelIds) : DBState :=
  add_rows (add_rows db "edge" novel.edges.length)
    "exon_annotations"
    (novel.edges.filter (fun e => e.2.edge_type == "exon")).length

/-- `batch_add_vertices_and_locations`: one row per novel vertex into both
`vertex` and `location`. -/
def batch_add_vertices_and_locations (db : DBState) (novel : NovelIds) : DBState :=
  add_rows (add_rows db "vertex" novel.vertices.length)
    "location" novel.vertices.length

/-- `batch_add_observed`: one row per observed tuple into `observed`. -/
def batch_add_observed (db : DBState) (novel : NovelIds) : DBState :=
  add_rows db "observed" novel.observed.length

/-- `add_datasets`: one row per new dataset into `dataset` (a single
`executemany`, not chunked). -/
def add_datasets (db : DBState) (novel : NovelIds) : DBState :=
  add_rows db "dataset" novel.datasets.length

/-- `update_counter`: writes the in-memory counters back into the `counters`
table for the six categories the run maintains; other counter rows (such as
`genome_build`) keep their stored values. -/
def update_counter (db : DBState) (counter : CounterDict) : DBState :=
  { db with
    counters :=
      dictSet (dictSet (dictSet (dictSet (dictSet (dictSet db.counters
        "genes" counter.genes)
        "transcripts" counter.transcripts)
        "edge" counter.edges)
        "vertex" counter.vertices)
        "dataset" counter.datasets)
        "observed" counter.observed }

/-- `batch_add_abundance`: one row per `(transcript, dataset)` pair of the
abundance dictionary into `abundance`. -/
def batch_add_abundance (db : DBState)
    (abundances : List (Nat × List (String × Nat))) : DBState :=
  add_rows db "abundance" (abundances.map (fun p => p.2.length)).sum

/-- The `ValueError` message raised by `check_database_integrity`. -/
def integrity_error_msg (table_name : String) : String :=
  "Database counter for '" ++ table_name ++
    "' does not match the number of entries in the table." ++
    " Discarding changes to database and exiting..."

/-- The loop of `check_database_integrity`: for each row of the `counters`
table, in order, compare the category's live `COUNT(*)` with the counter value
and raise on the first mismatch. -/
def check_counters (tables : List (String × Nat)) :
    List (String × Nat) → Except String Unit
  | [] => .ok ()
  | (table_name, curr_counter) :: rest =>
    let actual_count := (dictGet tables table_name).getD 0
    if actual_count ≠ curr_counter then .error (integrity_error_msg table_name)
    else check_counters tables rest

/-- `check_database_integrity` from src/archived/talon.py (lines 605-627). -/
def check_database_integrity (db : DBState) : Except String Unit :=
  check_counters db.tables db.counters

/-- The operations `update_database` performs, in trace form. -/
inductive DBPhase where
  | genesP | transcriptsP | edgesP | verticesLocationsP | observedP
  | datasetsP | counterP | abundanceP | integrityP | commitP
deriving DecidableEq

/-- The pending (uncommitted) state after all staged inserts and counter
updates of `update_database`, composed in source order. -/
def staged_state (db : DBState) (novel : NovelIds) (counter : CounterDict)
    (abundances : List (Nat × List (String × Nat))) : DBState :=
  batch_add_abundance
    (update_counter
      (add_datasets
        (batch_add_observed
          (batch_add_vertices_and_locations
            (batch_add_edges
              (batch_add_transcripts
                (batch_add_genes db novel) novel) novel) novel) novel) novel)
      counter)
    abundances

structure UpdateResult where
  db : DBState
  err : Option String
  trace : List DBPhase

/-- `update_database` from src/archived/talon.py (lines 564-603): the staged
inserts run in source order on the open transaction, then
`check_database_integrity`, and `conn.commit()` only if no error was raised.
The result carries the durable state after the call (the pending state when
committed, the original state when the integrity error aborted the
transaction), the raised error if any, and the operation trace. -/
def update_database (db : DBState) (novel : NovelIds) (counter : CounterDict)
    (abundances : List (Nat × List (String × Nat))) : UpdateResult :=
  let pending := staged_state db novel counter abundances
  let ops := [DBPhase.genesP, DBPhase.transcriptsP, DBPhase.edgesP,
              DBPhase.verticesLocationsP, DBPhase.observedP, DBPhase.datasetsP,
              DBPhase.counterP, DBPhase.abundanceP, DBPhase.integrityP]
  match check_database_integrity pending with
  | .ok _ => ⟨pending, none, ops ++ [DBPhase.commitP]⟩
  | .error e => ⟨db, some e, ops⟩

theorem check_counters_ok_iff (tables : List (String × Nat))
    (l : List (String × Nat)) :
    check_counters tables l = .ok () ↔
      ∀ p ∈ l, (dictGet tables p.1).getD 0 = p.2 := by
  induction l with
  | nil => simp [check_counters]
  | cons hd rest ih =>
    obtain ⟨table_name, curr_counter⟩ := hd
    by_cases h : (dictGet tables table_name).getD 0 = curr_counter
    · simp [check_counters, h, ih]
    · simp [check_counters, h]

theorem check_counters_error (tables : List (String × Nat))
    (l : List (String × Nat)) (e : String)
    (he : check_counters tables l = .error e) :
    ∃ p ∈ l, (dictGet tables p.1).getD 0 ≠ p.2 ∧ e = integrity_error_msg p.1 := by
  induction l with
  | nil => simp [check_counters] at he
  | cons hd rest ih =>
    obtain ⟨table_name, curr_counter⟩ := hd
    by_cases h : (dictGet tables table_name).getD 0 = curr_counter
    · simp [check_counters, h] at he
      obtain ⟨p, hp, hne, hmsg⟩ := ih he
      exact ⟨p, List.mem_cons_of_mem _ hp, hne, hmsg⟩
    · simp [check_counters, h] at he
      exact ⟨(table_name, curr_counter), List.mem_cons_self _ _, h, he.symm⟩

/-- C1: `update_database` commits exactly when, in the fully staged pending
state, every category listed in the `counters` table has a live row count
equal to its counter value; on any mismatch a `ValueError` naming the
offending category is raised before the commit, the durable state stays the
original one (no staged write becomes durable), and on success the durable
state is the staged state, in which every category's row count equals its
counter. -/
theorem update_database_integrity (db : DBState) (novel : NovelIds)
    (counter : CounterDict) (abundances : List (Nat × List (String × Nat))) :
    ((update_database db novel counter abundances).err = none ↔
      ∀ p ∈ (staged_state db novel counter abundances).counters,
        (dictGet (staged_state db novel counter abundances).tables p.1).getD 0 =
          p.2) ∧
    ((update_database db novel counter abundances).err = none →
      (update_database db novel counter abundances).db =
        staged_state db novel counter abundances) ∧
    (∀ e, (update_database db novel counter abundances).err = some e →
      (update_database db novel counter abundances).db = db ∧
      ∃ p ∈ (staged_state db novel counter abundances).counters,
        (dictGet (staged_state db novel counter abundances).tables p.1).getD 0 ≠
          p.2 ∧
        e = integrity_error_msg p.1) := by
  match hcheck : check_database_integrity (staged_state db novel counter abundances) with
  | .ok u =>
    obtain rfl : u = () := rfl
    have hall := (check_counters_ok_iff
      (staged_state db novel counter abundances).tables
      (staged_state db novel counter abundances).counters).mp hcheck
    refine ⟨?_, ?_, ?_⟩
    · simp [update_database, hcheck]
      exact fun a b hab => hall (a, b) hab
    · intro _
      simp [update_database, hcheck]
    · intro e he
      simp [update_database, hcheck] at he
  | .error e0 =>
    have hmm := check_counters_error
      (staged_state db novel counter abundances).tables
      (staged_state db novel counter abundances).counters e0 hcheck
    refine ⟨?_, ?_, ?_⟩
    · constructor
      · intro h
        simp [update_database, hcheck] at h
      · intro hall
        exfalso
        obtain ⟨p, hp, hne, _⟩ := hmm
        exact hne (hall p hp)
    · intro h
      simp [update_database, hcheck] at h
    · intro e he
      simp [update_database, hcheck] at he
      subst he
      exact ⟨by simp [update_database, hcheck], hmm⟩

/-- Witness for C1 at a concrete input: an empty store whose only counter row
is `("genes", 1)` and one staged novel gene with the counter dict at 1; the
staged count matches and the call commits. -/
theorem update_database_integrity_witness :
    ((update_database ⟨[("genes", 1)], [("genes", 0)]⟩
        ⟨[(1, (1, "d1"))], [], [], [], [], []⟩ ⟨1, 0, 0, 0, 0, 0⟩ []).err = none ↔
      ∀ p ∈ (staged_state ⟨[("genes", 1)], [("genes", 0)]⟩
          ⟨[(1, (1, "d1"))], [], [], [], [], []⟩ ⟨1, 0, 0, 0, 0, 0⟩ []).counters,
        (dictGet (staged_state ⟨[("genes", 1)], [("genes", 0)]⟩
            ⟨[(1, (1, "d1"))], [], [], [], [], []⟩ ⟨1, 0, 0, 0, 0, 0⟩ []).tables
          p.1).getD 0 = p.2) ∧
    ((update_database ⟨[("genes", 1)], [("genes", 0)]⟩
        ⟨[(1, (1, "d1"))], [], [], [], [], []⟩ ⟨1, 0, 0, 0, 0, 0⟩ []).err = none →
      (update_database ⟨[("genes", 1)], [("genes", 0)]⟩
          ⟨[(1, (1, "d1"))], [], [], [], [], []⟩ ⟨1, 0, 0, 0, 0, 0⟩ []).db =
        staged_state ⟨[("genes", 1)], [("genes", 0)]⟩
          ⟨[(1, (1, "d1"))], [], [], [], [], []⟩ ⟨1, 0, 0, 0, 0, 0⟩ []) ∧
    (∀ e, (update_database ⟨[("genes", 1)], [("genes", 0)]⟩
        ⟨[(1, (1, "d1"))], [], [], [], [], []⟩ ⟨1, 0, 0, 0, 0, 0⟩ []).err = some e →
      (update_database ⟨[("genes", 1)], [("genes", 0)]⟩
          ⟨[(1, (1, "d1"))], [], [], [], [], []⟩ ⟨1, 0, 0, 0, 0, 0⟩ []).db =
        ⟨[("genes", 1)], [("genes", 0)]⟩ ∧
      ∃ p ∈ (staged_state ⟨[("genes", 1)], [("genes", 0)]⟩
          ⟨[(1, (1, "d1"))], [], [], [], [], []⟩ ⟨1, 0, 0, 0, 0, 0⟩ []).counters,
        (dictGet (staged_state ⟨[("genes", 1)], [("genes", 0)]⟩
            ⟨[(1, (1, "d1"))], [], [], [], [], []⟩ ⟨1, 0, 0, 0, 0, 0⟩ []).tables
          p.1).getD 0 ≠ p.2 ∧
        e = integrity_error_msg p.1) :=
  update_database_integrity ⟨[("genes", 1)], [("genes", 0)]⟩
    ⟨[(1, (1, "d1"))], [], [], [], [], []⟩ ⟨1, 0, 0, 0, 0, 0⟩ []

/-- C2: the trace of `update_database` is exactly genes, transcripts, edges,
vertices/locations, observed, datasets, counter update, abundance, in that
order, followed by the integrity check, with the commit last and present
exactly when the integrity check passed. -/
theorem update_database_order (db : DBState) (novel : NovelIds)
    (counter : CounterDict) (abundances : List (Nat × List (String × Nat))) :
    ((update_database db novel counter abundances).err = none →
      (update_database db novel counter abundances).trace =
        [DBPhase.genesP, DBPhase.transcriptsP, DBPhase.edgesP,
         DBPhase.verticesLocationsP, DBPhase.observedP, DBPhase.datasetsP,
         DBPhase.counterP, DBPhase.abundanceP, DBPhase.integrityP,
         DBPhase.commitP]) ∧
    (∀ e, (update_database db novel counter abundances).err = some e →
      (update_database db novel counter abundances).trace =
        [DBPhase.genesP, DBPhase.transcriptsP, DBPhase.edgesP,
         DBPhase.verticesLocationsP, DBPhase.observedP, DBPhase.datasetsP,
         DBPhase.counterP, DBPhase.abundanceP, DBPhase.integrityP]) := by
  match hcheck : check_database_integrity (staged_state db novel counter abundances) with
  | .ok u =>
    obtain rfl : u = () := rfl
    constructor
    · intro _
      simp [update_database, hcheck]
    · intro e he
      simp [update_database, hcheck] at he
  | .error e0 =>
    constructor
    · intro h
      simp [update_database, hcheck] at h
    · intro e he
      simp [update_database, hcheck]

/-- Witness for C2 at a concrete input: same store as the C1 witness; the
check passes and the commit phase closes the trace. -/
theorem update_database_order_witness :
    ((update_database ⟨[("genes", 1)], [("genes", 0)]⟩
        ⟨[(1, (1, "d1"))], [], [], [], [], []⟩ ⟨1, 0, 0, 0, 0, 0⟩ []).err = none →
      (update_database ⟨[("genes", 1)], [("genes", 0)]⟩
          ⟨[(1, (1, "d1"))], [], [], [], [], []⟩ ⟨1, 0, 0, 0, 0, 0⟩ []).trace =
        [DBPhase.genesP, DBPhase.transcriptsP, DBPhase.edgesP,
         DBPhase.verticesLocationsP, DBPhase.observedP, DBPhase.datasetsP,
         DBPhase.counterP, DBPhase.abundanceP, DBPhase.integrityP,
         DBPhase.commitP]) ∧
    (∀ e, (update_database ⟨[("genes", 1)], [("genes", 0)]⟩
        ⟨[(1, (1, "d1"))], [], [], [], [], []⟩ ⟨1, 0, 0, 0, 0, 0⟩ []).err = some e →
      (update_database ⟨[("genes", 1)], [("genes", 0)]⟩
          ⟨[(1, (1, "d1"))], [], [], [], [], []⟩ ⟨1, 0, 0, 0, 0, 0⟩ []).trace =
        [DBPhase.genesP, DBPhase.transcriptsP, DBPhase.edgesP,
         DBPhase.verticesLocationsP, DBPhase.observedP, DBPhase.datasetsP,
         DBPhase.counterP, DBPhase.abundanceP, DBPhase.integrityP]) :=
  update_database_order ⟨[("genes", 1)], [("genes", 0)]⟩
    ⟨[(1, (1, "d1"))], [], [], [], [], []⟩ ⟨1, 0, 0, 0, 0, 0⟩ []

end Talon
